import Mathlib

/-!
Shallow embedding of `src/main.py` of the early-fakenews-detection
repository: device selection, the evaluation accounting of `predict`,
the training-loop hidden-state buffer discipline, checkpoint saving,
drop-last batching, and the order of effects of `load_model` / `__main__`.
-/

/-- Devices selectable at startup (`torch.device`, main.py line 28). -/
inductive Device where
  | cpu : Device
  | cuda : Int → Device
deriving DecidableEq

/-- Device selection, main.py line 28:
`torch.device("cuda:{}".format(args.cuda) if args.cuda else "cpu")`.
`args.cuda` is an optional integer (default `None`); Python truthiness makes
both `None` and `0` select the CPU string. -/
def selectDevice : Option Int → Device
  | none => Device.cpu
  | some n => if n = 0 then Device.cpu else Device.cuda n

/-- One iteration of the accumulator loop of `predict`, main.py lines 69-76:
`for o, t in zip(output.tolist(), labels.tolist())` with the asymmetric
branches on the true label `t` and the predicted class `o`. -/
def accStep (acc : List Int × List Int) (p : Int × Int) : List Int × List Int :=
  let o := p.1
  let t := p.2
  let true_acc := acc.1
  let false_acc := acc.2
  if t = 1 then
    (true_acc ++ [o], false_acc)
  else if t = 0 then
    if o = 1 then
      (true_acc, false_acc ++ [0])
    else if o = 0 then
      (true_acc, false_acc ++ [1])
    else
      (true_acc, false_acc)
  else
    (true_acc, false_acc)

/-- The whole accumulator-filling pass of `predict` over the (flattened)
predicted classes and true labels, main.py lines 55-76: both accumulators
start empty and grow by `accStep` per record. -/
def fillAccs (outputs labels : List Int) : List Int × List Int :=
  (outputs.zip labels).foldl accStep ([], [])

/-- The ratio `sum(acc) / len(acc)` computed by the report lines 77-79 of
main.py; `none` models the uncaught `ZeroDivisionError` Python raises when
the accumulator is empty. -/
def accRatio (acc : List Int) : Option ℚ :=
  if acc.length = 0 then none
  else some ((acc.sum : ℚ) / (acc.length : ℚ))

/-- The three ratios printed at main.py lines 77-79: true-class accuracy,
false-class accuracy, and overall accuracy over the concatenated
accumulators (`true_acc + false_acc`). `none` models the
`ZeroDivisionError` escaping `predict` (there is no guard in the source). -/
def predictReport (outputs labels : List Int) : Option (ℚ × ℚ × ℚ) :=
  let accs := fillAccs outputs labels
  match accRatio accs.1, accRatio accs.2, accRatio (accs.1 ++ accs.2) with
  | some x, some y, some z => some (x, y, z)
  | _, _, _ => none

/-- The command-line arguments of main.py (lines 126-138) that the control
flow of `load_model` and `__main__` branches on. `test` is the checkpoint
file name selecting evaluation mode; `logdir` is the optional log
directory; `cuda` the optional GPU number; `input` the data file path. -/
structure Args where
  cuda : Option Int
  logdir : Option String
  test : Option String
  input : String
deriving DecidableEq

/-- Observable effects of the startup path of main.py, in source order. -/
inductive Event where
  | loadConfig
  | loadTopicFeature
  | loadData
  | buildModel
  | loadCheckpoint
  | buildDataloader
  | usageErrorStdout
  | runPredict
  | runTrain
deriving DecidableEq

/-- How a run of the startup path ends. `typeErrorCrash` is the uncaught
`TypeError` Python raises from `os.path.join(None, args.test)` when
`args.logdir` is `None` (main.py line 39). -/
inductive Outcome where
  | finished
  | exited (code : Nat)
  | typeErrorCrash
deriving DecidableEq

/-- Trace and outcome of `load_model` (main.py lines 18-49): load the topic
feature (22-23), read and parse the input data file (25), build the model
(30-36); then, in test mode (38-43), call
`torch.load(os.path.join(args.logdir, args.test))` — which raises an
uncaught `TypeError` when `args.logdir` is `None`, before the
`if args.logdir is None` guard on line 41 ever runs — and finally build the
dataloader (47). -/
def load_model_run (a : Args) : List Event × Outcome :=
  let pre := [Event.loadTopicFeature, Event.loadData, Event.buildModel]
  match a.test with
  | none => (pre ++ [Event.buildDataloader], Outcome.finished)
  | some _ =>
    match a.logdir with
    | none => (pre, Outcome.typeErrorCrash)
    | some _ => (pre ++ [Event.loadCheckpoint, Event.buildDataloader], Outcome.finished)

/-- Trace and outcome of the `__main__` block (main.py lines 125-149): load
the config file (139), run `load_model` (140), and then — only if
`load_model` returned — branch on `args.test`: in test mode with no logdir,
print "[-] No log directory option" to stdout and `sys.exit(1)`
(143-145), otherwise run `predict` (147) or `train` (149). -/
def main_run (a : Args) : List Event × Outcome :=
  let lm := load_model_run a
  let tr := Event.loadConfig :: lm.1
  match lm.2 with
  | Outcome.finished =>
    match a.test with
    | some _ =>
      match a.logdir with
      | none => (tr ++ [Event.usageErrorStdout], Outcome.exited 1)
      | some _ => (tr ++ [Event.runPredict], Outcome.finished)
    | none => (tr ++ [Event.runTrain], Outcome.finished)
  | o => (tr, o)

/-- Checkpoint contents, main.py lines 116-120: the `state` dict with keys
`epoch`, `state_dict` (model parameters) and `optimizer` (optimizer
state). Model and optimizer states are abstract type parameters. -/
structure Checkpoint (μ κ : Type) where
  epoch : Nat
  state_dict : μ
  optimizer : κ
deriving DecidableEq

/-- Checkpoint file name, main.py line 121: `"{}.ckpt".format(epoch+1)`. -/
def ckptFileName (epoch : Nat) : String :=
  toString (epoch + 1) ++ ".ckpt"

/-- A tiny filesystem: the set of existing directories and the files
written so far, each with its checkpoint contents. -/
structure FS (μ κ : Type) where
  dirs : List String
  files : List (String × Checkpoint μ κ)
deriving DecidableEq

/-- The end-of-epoch checkpoint block of `train`, main.py lines 111-122:
if `args.logdir` is set, create the directory when absent (113-114) and
save the `state` dict under `<logdir>/<epoch+1>.ckpt` (116-121); when
`args.logdir` is `None`, nothing is persisted and no error is raised. -/
def epochEndSave (fs : FS μ κ) (logdir : Option String) (epoch : Nat)
    (m : μ) (opt : κ) : FS μ κ :=
  match logdir with
  | none => fs
  | some d =>
    let fs1 : FS μ κ := if d ∈ fs.dirs then fs else ⟨fs.dirs ++ [d], fs.files⟩
    ⟨fs1.dirs, fs1.files ++ [(d ++ "/" ++ ckptFileName epoch, ⟨epoch, m, opt⟩)]⟩

/-- The hidden-state buffer `h0` of `train` (main.py line 86). `allocId`
identifies the allocation (a fresh `torch.zeros` would carry a new id);
`contents` are the buffer's values, flattened. -/
structure H0Buffer where
  allocId : Nat
  contents : List ℚ
deriving DecidableEq

/-- Allocation of the buffer, `torch.zeros(rnn_layers, batch_size,
hidden_size)` at main.py line 86: a fresh buffer filled with zeros. -/
def torchZeros (freshId : Nat) (n : Nat) : H0Buffer :=
  ⟨freshId, List.replicate n 0⟩

/-- In-place reset `h0.data.zero_()` at main.py line 94: every entry is
overwritten with zero; the allocation is reused, not replaced. -/
def zeroInPlace (b : H0Buffer) : H0Buffer :=
  ⟨b.allocId, b.contents.map (fun _ => 0)⟩

/-- The inner batch loop of `train` (main.py lines 90-109) restricted to its
effect on `h0`: each batch first runs `h0.data.zero_()` and then the forward
pass `model(sequences, tweets, h0)` reads the buffer (the forward pass does
not write `h0`, and nothing else in the loop touches it). Returns the buffer
after the loop together with the list of buffer contents observed by each
forward pass, in order. -/
def trainBatchesH0 : H0Buffer → Nat → H0Buffer × List (List ℚ)
  | b, 0 => (b, [])
  | b, n + 1 =>
    let b1 := zeroInPlace b
    let r := trainBatchesH0 b1 n
    (r.1, b1.contents :: r.2)

/-- The epoch loop of `train` (main.py line 88) restricted to its effect on
`h0`: each epoch runs the batch loop on the same buffer. -/
def trainEpochsH0 : H0Buffer → Nat → Nat → H0Buffer × List (List ℚ)
  | b, 0, _ => (b, [])
  | b, e + 1, nb =>
    let r1 := trainBatchesH0 b nb
    let r2 := trainEpochsH0 r1.1 e nb
    (r2.1, r1.2 ++ r2.2)

/-- The whole `h0` lifetime in `train`: one allocation before the epoch loop
(main.py line 86, allocation id 0), then `epochs` epochs of `batches`
batches each. -/
def trainH0Run (rnn_layers batch_size hidden_size epochs batches : Nat) :
    H0Buffer × List (List ℚ) :=
  trainEpochsH0 (torchZeros 0 (rnn_layers * batch_size * hidden_size)) epochs batches

/-- Operations performed by the body of `predict` (main.py lines 52-76),
per batch. `toTensor` records the `requires_grad` flag of a tensor
construction (lines 62-64); `forwardPass` records whether autograd
gradient tracking is active during `model(sequences, tweets, h0)` (line
66) — the source wraps the loop in no `torch.no_grad()` context, so
tracking stays enabled. -/
inductive EvalOp where
  | toTensor (requiresGrad : Bool)
  | forwardPass (gradTracking : Bool)
  | softmaxArgmax
  | accumulate
  | backwardPass
  | optimizerStep
deriving DecidableEq

/-- The per-batch operation sequence of `predict`, main.py lines 59-76:
three tensor constructions with `requires_grad=False`, the forward pass
(with gradient tracking still enabled — no `torch.no_grad()` anywhere in
`predict`), softmax+argmax, and the accumulator updates. No backward pass
and no optimizer step occur. -/
def predictBatchOps : List EvalOp :=
  [EvalOp.toTensor false, EvalOp.toTensor false, EvalOp.toTensor false,
   EvalOp.forwardPass true, EvalOp.softmaxArgmax, EvalOp.accumulate]

/-- The operation sequence of a full evaluation pass of `predict` over
`numBatches` batches. -/
def predictOps (numBatches : Nat) : List EvalOp :=
  (List.replicate numBatches predictBatchOps).flatten

/-- Model parameters together with their accumulated gradients. -/
structure ParamState (π : Type) where
  params : π
  grads : π
deriving DecidableEq

/-- Interpreter of `EvalOp` on the parameter state: only a backward pass
can change the accumulated gradients (by an arbitrary effect `be`) and
only an optimizer step can change the parameters (by an arbitrary effect
`se`); every other operation leaves both untouched. -/
def applyEvalOp (be se : π → π → π) (s : ParamState π) : EvalOp → ParamState π
  | EvalOp.backwardPass => ⟨s.params, be s.params s.grads⟩
  | EvalOp.optimizerStep => ⟨se s.params s.grads, s.grads⟩
  | _ => s

/-- Run a list of evaluation operations on a parameter state. -/
def runEvalOps (be se : π → π → π) (s : ParamState π) (ops : List EvalOp) : ParamState π :=
  ops.foldl (applyEvalOp be se) s

/-- Drop-last batching, the semantics of
`DataLoader(..., batch_size=b, drop_last=True, ...)` at main.py line 47:
the dataset is cut into `len / b` consecutive batches of exactly `b`
records; a trailing partial batch is discarded. -/
def dropLastBatches (xs : List α) (b : Nat) : List (List α) :=
  (List.range (xs.length / b)).map (fun i => (xs.drop (b * i)).take b)

/-! Helper lemmas (shared; not claim theorems). -/

/-- A record whose true label is neither 1 nor 0 leaves both accumulators
unchanged. -/
theorem accStep_other_label (acc : List Int × List Int) (o t : Int)
    (ht1 : t ≠ 1) (ht0 : t ≠ 0) : accStep acc (o, t) = acc := by
  simp [accStep, ht1, ht0]

/-- A label-0 record whose predicted class is neither 1 nor 0 leaves both
accumulators unchanged. -/
theorem accStep_label0_other_pred (acc : List Int × List Int) (o : Int)
    (ho1 : o ≠ 1) (ho0 : o ≠ 0) : accStep acc (o, 0) = acc := by
  simp [accStep, ho1, ho0]

/-- Appending one record to equally long prediction and label lists runs one
more `accStep` on the accumulators. -/
theorem fillAccs_append (outs labs : List Int) (h : outs.length = labs.length)
    (o t : Int) :
    fillAccs (outs ++ [o]) (labs ++ [t]) = accStep (fillAccs outs labs) (o, t) := by
  simp [fillAccs, List.zip_append h, List.foldl_append]

/-- Mapping every entry to zero yields a replicate of zeros. -/
theorem map_zero_eq_replicate (l : List ℚ) :
    l.map (fun _ => (0 : ℚ)) = List.replicate l.length 0 := by
  induction l with
  | nil => rfl
  | cons x xs ih => simp [ih, List.replicate_succ]

/-- The in-place reset keeps the allocation id and the length, and leaves
the buffer all-zero. -/
theorem zeroInPlace_spec (b : H0Buffer) :
    (zeroInPlace b).allocId = b.allocId ∧
    (zeroInPlace b).contents = List.replicate b.contents.length 0 := by
  exact ⟨rfl, map_zero_eq_replicate b.contents⟩

/-- The batch loop never reallocates the buffer, never changes its length,
observes one all-zero buffer per batch, and observes exactly one buffer per
batch. -/
theorem trainBatchesH0_spec (n : Nat) : ∀ b : H0Buffer,
    (trainBatchesH0 b n).1.allocId = b.allocId ∧
    (trainBatchesH0 b n).1.contents.length = b.contents.length ∧
    (trainBatchesH0 b n).2.length = n ∧
    ∀ obs ∈ (trainBatchesH0 b n).2, obs = List.replicate b.contents.length 0 := by
  induction n with
  | zero => intro b; simp [trainBatchesH0]
  | succ n ih =>
    intro b
    have hz := zeroInPlace_spec b
    have hlen : (zeroInPlace b).contents.length = b.contents.length := by
      rw [hz.2]; simp
    obtain ⟨ih1, ih2, ih3, ih4⟩ := ih (zeroInPlace b)
    refine ⟨?_, ?_, ?_, ?_⟩
    · simpa [trainBatchesH0, hz.1] using ih1
    · simpa [trainBatchesH0, hlen] using ih2
    · simpa [trainBatchesH0] using ih3
    · intro obs hobs
      simp only [trainBatchesH0, List.mem_cons] at hobs
      rcases hobs with rfl | hobs
      · rw [hz.2]
      · have := ih4 obs hobs
        rwa [hlen] at this

/-- The epoch loop never reallocates the buffer, never changes its length,
and every buffer observed by a forward pass is all-zero. -/
theorem trainEpochsH0_spec (e : Nat) : ∀ (b : H0Buffer) (nb : Nat),
    (trainEpochsH0 b e nb).1.allocId = b.allocId ∧
    (trainEpochsH0 b e nb).1.contents.length = b.contents.length ∧
    (trainEpochsH0 b e nb).2.length = e * nb ∧
    ∀ obs ∈ (trainEpochsH0 b e nb).2, obs = List.replicate b.contents.length 0 := by
  induction e with
  | zero => intro b nb; simp [trainEpochsH0]
  | succ e ih =>
    intro b nb
    obtain ⟨h1, h2, h3, h4⟩ := trainBatchesH0_spec nb b
    obtain ⟨ih1, ih2, ih3, ih4⟩ := ih (trainBatchesH0 b nb).1 nb
    refine ⟨?_, ?_, ?_, ?_⟩
    · simpa [trainEpochsH0, ih1] using h1
    · simpa [trainEpochsH0, ih2] using h2
    · simp only [trainEpochsH0, List.length_append, h3, ih3]
      ring
    · intro obs hobs
      simp only [trainEpochsH0, List.mem_append] at hobs
      rcases hobs with hobs | hobs
      · exact h4 obs hobs
      · rw [ih4 obs hobs, h2]

/-- Every batch produced by drop-last batching has exactly the configured
size. -/
theorem dropLastBatches_mem_length (xs : List α) (b : Nat) (hb : 0 < b)
    (c : List α) (hc : c ∈ dropLastBatches xs b) : c.length = b := by
  simp only [dropLastBatches, List.mem_map, List.mem_range] at hc
  obtain ⟨i, hi, rfl⟩ := hc
  have h1 : (i + 1) * b ≤ xs.length := by
    calc (i + 1) * b ≤ (xs.length / b) * b := Nat.mul_le_mul_right b hi
      _ ≤ xs.length := Nat.div_mul_le_self _ _
  have h2 : (i + 1) * b = b * i + b := by ring
  simp only [List.length_take, List.length_drop]
  omega

/-- Concatenating the first `k` drop-last chunks yields the prefix of
length `b * k`. -/
theorem flatten_chunks (xs : List α) (b : Nat) : ∀ k : Nat,
    ((List.range k).map (fun i => (xs.drop (b * i)).take b)).flatten =
      xs.take (b * k) := by
  intro k
  induction k with
  | zero => simp
  | succ k ih =>
    rw [List.range_succ, List.map_append, List.flatten_append, ih]
    simp only [List.map_cons, List.map_nil, List.flatten_cons, List.flatten_nil,
      List.append_nil]
    rw [Nat.mul_succ, List.take_add]

/-- The records dropped by drop-last batching never appear in any batch:
the concatenation of all batches is exactly the prefix of length
`b * (len / b)`. -/
theorem dropLastBatches_flatten (xs : List α) (b : Nat) :
    (dropLastBatches xs b).flatten = xs.take (b * (xs.length / b)) :=
  flatten_chunks xs b (xs.length / b)

/-! Claim theorems. -/

/-- C1: in the evaluation loop the accumulators follow the asymmetric
accounting policy of main.py lines 69-76 — label 1 appends the raw
prediction to the true accumulator; label 0 appends 0 to the false
accumulator on prediction 1 and 1 on prediction 0 — and on labels
[1,1,0,0] with predictions [1,0,1,0] the true accumulator is [1,0], the
false accumulator is [0,1], and the overall accuracy is 1/2. -/
theorem C1_eval_accounting :
    (∀ (ta fa : List Int) (o : Int), accStep (ta, fa) (o, 1) = (ta ++ [o], fa)) ∧
    (∀ ta fa : List Int, accStep (ta, fa) (1, 0) = (ta, fa ++ [0])) ∧
    (∀ ta fa : List Int, accStep (ta, fa) (0, 0) = (ta, fa ++ [1])) ∧
    fillAccs [1, 0, 1, 0] [1, 1, 0, 0] = ([1, 0], [0, 1]) ∧
    predictReport [1, 0, 1, 0] [1, 1, 0, 0] = some (1/2, 1/2, 1/2) := by
  refine ⟨?_, ?_, ?_, by decide, ?_⟩
  · intro ta fa o; simp [accStep]
  · intro ta fa; simp [accStep]
  · intro ta fa; simp [accStep]
  · norm_num [predictReport, fillAccs, accStep, accRatio, List.foldl, List.zip]

/-- C2: when one class is entirely absent from the evaluation set the final
ratio computation of `predict` (main.py lines 77-79) divides by a zero
length; the source has no guard, so the `ZeroDivisionError` propagates
uncaught (modelled by `none`). The concrete run below has one record with
true label 0 predicted 0: the true accumulator is empty and the report
faults. -/
theorem C2_missing_class_faults :
    fillAccs [0] [0] = ([], [1]) ∧
    accRatio (fillAccs [0] [0]).1 = none ∧
    predictReport [0] [0] = none := by
  refine ⟨by decide, by decide, by decide⟩

/-- C3: invoking the program in evaluation mode (`--test` set) with no
`--logdir` does not raise a usage error before data loading; instead the
input file is read (main.py line 25) and then `os.path.join(None,
args.test)` at line 39 raises an uncaught `TypeError` before either
`if args.logdir is None` guard (lines 41-43 and 143-145) can run. -/
theorem C3_eval_without_logdir_crashes (a : Args) (s : String)
    (h1 : a.test = some s) (h2 : a.logdir = none) :
    (main_run a).2 = Outcome.typeErrorCrash ∧
    Event.loadData ∈ (main_run a).1 ∧
    Event.usageErrorStdout ∉ (main_run a).1 := by
  simp [main_run, load_model_run, h1, h2]

/-- Witness for C3 at the concrete arguments `--test 1.ckpt` with no log
directory. -/
theorem C3_eval_without_logdir_crashes_witness :
    (main_run ⟨none, none, some "1.ckpt", "news.json"⟩).2 = Outcome.typeErrorCrash ∧
    Event.loadData ∈ (main_run ⟨none, none, some "1.ckpt", "news.json"⟩).1 ∧
    Event.usageErrorStdout ∉ (main_run ⟨none, none, some "1.ckpt", "news.json"⟩).1 :=
  C3_eval_without_logdir_crashes ⟨none, none, some "1.ckpt", "news.json"⟩ "1.ckpt" rfl rfl

/-- C4: over any training run, the hidden-state buffer is allocated once
(the final buffer still carries allocation id 0 and the original length),
each of the `epochs * batches` forward passes observes the buffer right
after its in-place reset, and every observed buffer is all-zero. -/
theorem C4_h0_zero_every_batch (rnn_layers batch_size hidden_size epochs batches : Nat) :
    (trainH0Run rnn_layers batch_size hidden_size epochs batches).1.allocId = 0 ∧
    (trainH0Run rnn_layers batch_size hidden_size epochs batches).1.contents.length =
      rnn_layers * batch_size * hidden_size ∧
    (trainH0Run rnn_layers batch_size hidden_size epochs batches).2.length =
      epochs * batches ∧
    ∀ obs ∈ (trainH0Run rnn_layers batch_size hidden_size epochs batches).2,
      obs = List.replicate (rnn_layers * batch_size * hidden_size) 0 := by
  obtain ⟨h1, h2, h3, h4⟩ :=
    trainEpochsH0_spec epochs (torchZeros 0 (rnn_layers * batch_size * hidden_size)) batches
  refine ⟨h1, ?_, h3, ?_⟩
  · rw [trainH0Run] at *
    rw [h2]; simp [torchZeros]
  · intro obs hobs
    rw [trainH0Run] at *
    have := h4 obs hobs
    simpa [torchZeros] using this

/-- C5: at the end of an epoch with a configured log directory, the
directory exists afterwards and a file named `<epoch+1>.ckpt` holding the
epoch index, the model state and the optimizer state is written under it;
with no log directory the filesystem is untouched (and no error occurs). -/
theorem C5_epoch_end_checkpoint (μ κ : Type) (fs : FS μ κ) (d : String)
    (e : Nat) (m : μ) (opt : κ) :
    d ∈ (epochEndSave fs (some d) e m opt).dirs ∧
    (d ++ "/" ++ ckptFileName e, (⟨e, m, opt⟩ : Checkpoint μ κ)) ∈
      (epochEndSave fs (some d) e m opt).files ∧
    ckptFileName e = toString (e + 1) ++ ".ckpt" ∧
    epochEndSave fs none e m opt = fs := by
  refine ⟨?_, ?_, rfl, rfl⟩
  · by_cases h : d ∈ fs.dirs <;> simp [epochEndSave, h]
  · by_cases h : d ∈ fs.dirs <;> simp [epochEndSave, h]

/-- C6 counterexample: in a one-batch evaluation pass the forward pass runs
with gradient tracking enabled — `predict` (main.py lines 52-76) contains
no `torch.no_grad()` — so the claim that the full pass runs with gradient
tracking disabled is false. -/
theorem C6_grad_tracking_enabled :
    EvalOp.forwardPass true ∈ predictOps 1 ∧
    EvalOp.forwardPass false ∉ predictOps 1 := by
  decide

/-- C6 (amended): the evaluation pass performs no backward pass and no
optimizer step, so whatever effects those would have, the parameter state
(parameters and accumulated gradients) is unchanged by the whole pass. -/
theorem C6_no_param_mutation (π : Type) (be se : π → π → π) (s : ParamState π)
    (n : Nat) :
    runEvalOps be se s (predictOps n) = s ∧
    EvalOp.backwardPass ∉ predictOps n ∧
    EvalOp.optimizerStep ∉ predictOps n := by
  induction n with
  | zero => simp [predictOps, runEvalOps]
  | succ n ih =>
    have hstep : predictOps (n + 1) = predictBatchOps ++ predictOps n := by
      simp [predictOps, List.replicate_succ]
    refine ⟨?_, ?_, ?_⟩
    · rw [hstep]
      simp only [runEvalOps, List.foldl_append]
      have hbatch : List.foldl (applyEvalOp be se) s predictBatchOps = s := rfl
      rw [hbatch]
      exact ih.1
    · rw [hstep]
      simp only [List.mem_append, not_or]
      exact ⟨by decide, ih.2.1⟩
    · rw [hstep]
      simp only [List.mem_append, not_or]
      exact ⟨by decide, ih.2.2⟩

/-- C7: drop-last batching yields only full batches — every batch has
exactly the configured size, the batches cover exactly the prefix of
length `b * (len / b)` (the trailing partial batch is never seen) — and a
dataset of size 35 with batch size 32 yields exactly one batch. -/
theorem C7_drop_last (α : Type) (xs : List α) (b : Nat) (hb : 0 < b) :
    (∀ c ∈ dropLastBatches xs b, c.length = b) ∧
    (dropLastBatches xs b).length = xs.length / b ∧
    (dropLastBatches xs b).flatten = xs.take (b * (xs.length / b)) ∧
    (dropLastBatches (List.range 35) 32).length = 1 := by
  exact ⟨fun c hc => dropLastBatches_mem_length xs b hb c hc,
    by simp [dropLastBatches],
    dropLastBatches_flatten xs b,
    by decide⟩

/-- Witness for C7 at a dataset of size 35 and batch size 32. -/
theorem C7_drop_last_witness :
    0 < 32 ∧
    ((∀ c ∈ dropLastBatches (List.range 35) 32, c.length = 32) ∧
     (dropLastBatches (List.range 35) 32).length = (List.range 35).length / 32 ∧
     (dropLastBatches (List.range 35) 32).flatten =
       (List.range 35).take (32 * ((List.range 35).length / 32)) ∧
     (dropLastBatches (List.range 35) 32).length = 1) :=
  ⟨by decide, C7_drop_last Nat (List.range 35) 32 (by decide)⟩

/-- C8: device selection goes by Python truthiness of `args.cuda` (main.py
line 28): `--cuda 0` selects the CPU exactly as omitting the flag does,
and a CUDA device is selected only for a non-zero GPU index. -/
theorem C8_cuda_truthiness (n : Int) (hn : n ≠ 0) :
    selectDevice (some 0) = Device.cpu ∧
    selectDevice none = Device.cpu ∧
    selectDevice (some n) = Device.cuda n := by
  refine ⟨by decide, by decide, ?_⟩
  simp [selectDevice, hn]

/-- Witness for C8 at GPU index 1. -/
theorem C8_cuda_truthiness_witness :
    (1 : Int) ≠ 0 ∧
    (selectDevice (some 0) = Device.cpu ∧
     selectDevice none = Device.cpu ∧
     selectDevice (some 1) = Device.cuda 1) :=
  ⟨by decide, C8_cuda_truthiness 1 (by decide)⟩

/-- C9: a record whose true label is neither 1 nor 0, or a label-0 record
whose predicted class is neither 1 nor 0, leaves both accumulators — and
hence all three reported ratios — unchanged. -/
theorem C9_offscale_records_excluded (ta fa : List Int) (o t o' : Int)
    (ht1 : t ≠ 1) (ht0 : t ≠ 0) (ho1 : o' ≠ 1) (ho0 : o' ≠ 0) :
    accStep (ta, fa) (o, t) = (ta, fa) ∧
    accStep (ta, fa) (o', 0) = (ta, fa) ∧
    ∀ outs labs : List Int, outs.length = labs.length →
      fillAccs (outs ++ [o]) (labs ++ [t]) = fillAccs outs labs ∧
      fillAccs (outs ++ [o']) (labs ++ [0]) = fillAccs outs labs ∧
      predictReport (outs ++ [o]) (labs ++ [t]) = predictReport outs labs ∧
      predictReport (outs ++ [o']) (labs ++ [0]) = predictReport outs labs := by
  have hfill : ∀ outs labs : List Int, outs.length = labs.length →
      fillAccs (outs ++ [o]) (labs ++ [t]) = fillAccs outs labs := by
    intro outs labs h
    rw [fillAccs_append outs labs h, accStep_other_label _ o t ht1 ht0]
  have hfill0 : ∀ outs labs : List Int, outs.length = labs.length →
      fillAccs (outs ++ [o']) (labs ++ [0]) = fillAccs outs labs := by
    intro outs labs h
    rw [fillAccs_append outs labs h, accStep_label0_other_pred _ o' ho1 ho0]
  refine ⟨accStep_other_label (ta, fa) o t ht1 ht0,
    accStep_label0_other_pred (ta, fa) o' ho1 ho0, ?_⟩
  intro outs labs h
  refine ⟨hfill outs labs h, hfill0 outs labs h, ?_, ?_⟩
  · rw [predictReport, predictReport, hfill outs labs h]
  · rw [predictReport, predictReport, hfill0 outs labs h]

/-- Witness for C9 at label 2 and predicted class 3. -/
theorem C9_offscale_records_excluded_witness :
    ((2 : Int) ≠ 1 ∧ (2 : Int) ≠ 0 ∧ (3 : Int) ≠ 1 ∧ (3 : Int) ≠ 0) ∧
    (accStep ([1], [0]) (0, 2) = ([1], [0]) ∧
     accStep ([1], [0]) (3, 0) = ([1], [0]) ∧
     ∀ outs labs : List Int, outs.length = labs.length →
       fillAccs (outs ++ [0]) (labs ++ [2]) = fillAccs outs labs ∧
       fillAccs (outs ++ [3]) (labs ++ [0]) = fillAccs outs labs ∧
       predictReport (outs ++ [0]) (labs ++ [2]) = predictReport outs labs ∧
       predictReport (outs ++ [3]) (labs ++ [0]) = predictReport outs labs) :=
  ⟨⟨by decide, by decide, by decide, by decide⟩,
   C9_offscale_records_excluded [1] [0] 0 2 3
     (by decide) (by decide) (by decide) (by decide)⟩

/-- C10: the checkpoint written at the end of the epoch with 0-indexed
counter N-1 is the last file added, is named `N.ckpt`, and stores epoch
index N-1 — so the file named `N.ckpt` always contains epoch index N-1. -/
theorem C10_ckpt_name_off_by_one (N : Nat) (hN : 0 < N) (μ κ : Type)
    (fs : FS μ κ) (d : String) (m : μ) (opt : κ) :
    ckptFileName (N - 1) = toString N ++ ".ckpt" ∧
    (epochEndSave fs (some d) (N - 1) m opt).files.getLast? =
      some (d ++ "/" ++ ckptFileName (N - 1), (⟨N - 1, m, opt⟩ : Checkpoint μ κ)) ∧
    (⟨N - 1, m, opt⟩ : Checkpoint μ κ).epoch + 1 = N := by
  have heq : N - 1 + 1 = N := by omega
  refine ⟨?_, ?_, ?_⟩
  · rw [ckptFileName, heq]
  · by_cases h : d ∈ fs.dirs <;> simp [epochEndSave, h]
  · exact heq

/-- Witness for C10 at checkpoint file 3.ckpt. -/
theorem C10_ckpt_name_off_by_one_witness :
    0 < 3 ∧
    (ckptFileName (3 - 1) = toString 3 ++ ".ckpt" ∧
     (epochEndSave (⟨[], []⟩ : FS Nat Nat) (some "logs") (3 - 1) 7 8).files.getLast? =
       some ("logs" ++ "/" ++ ckptFileName (3 - 1), (⟨3 - 1, 7, 8⟩ : Checkpoint Nat Nat)) ∧
     (⟨3 - 1, 7, 8⟩ : Checkpoint Nat Nat).epoch + 1 = 3) :=
  ⟨by decide, C10_ckpt_name_off_by_one 3 (by decide) Nat Nat ⟨[], []⟩ "logs" 7 8⟩
